import Mathlib

/-!
# Verification of the BAP taint-propagation plugin core

Shallow embedding of `plugins/bap/utils/bap_taint.py`: the session builder
(`PropagateTaint.__init__`), the color-scheme file writing, the completion
handler (`BapTaint.finish` and `BapTaint._do_callbacks`), and the callback
registry (`BapTaint.install_callback`), together with theorems checking the
specification's claims about them.
-/

namespace BapTaint

/-! ## Constants from the source -/

/-- The `patterns` constant: the ordered `(predicate, color)` rules written to
the color scheme file. -/
def patterns : List (String × String) :=
  [("true", "gray"),
   ("is-visited", "white"),
   ("has-taints", "red"),
   ("taints", "yellow")]

/-- `PropagateTaint.ENGINE`, the default engine answer. -/
def ENGINE : String := "primus"

/-- `PropagateTaint.DEPTH`, the default propagation depth. -/
def DEPTH : Int := 4096

/-- `PropagateTaint.LOOP_DEPTH`, the fixed loop-visit bound (never prompted). -/
def LOOP_DEPTH : Int := 64

/-! ## Prompt resolution

`engine = idaapi.askstr(...) or self.ENGINE`: `askstr` returns `None` on a
cancelled dialog (modelled as `none`) or the entered string; Python's `or`
substitutes the default when the left side is falsy, i.e. `None` or the empty
string.  `depth = idaapi.asklong(...) or self.DEPTH`: `asklong` returns `None`
on cancel or the entered integer; the integer `0` is falsy as well. -/

/-- Resolution of the engine prompt answer (`askstr ... or self.ENGINE`). -/
def resolveEngine (ans : Option String) : String :=
  match ans with
  | none => ENGINE
  | some s => if s = "" then ENGINE else s

/-- Resolution of the depth prompt answer (`asklong ... or self.DEPTH`). -/
def resolveDepth (ans : Option Int) : Int :=
  match ans with
  | none => DEPTH
  | some d => if d = 0 then DEPTH else d

/-! ## Address rendering

`'0x{:X}'.format(addr)`: `0x` followed by the uppercase hexadecimal digits of
the (non-negative) address, with no leading zeros, and the single digit `0`
for address zero. -/

/-- One uppercase hexadecimal digit. -/
def hexDigitU (n : Nat) : Char :=
  if n < 10 then Char.ofNat (48 + n) else Char.ofNat (55 + n)

/-- Uppercase hexadecimal digits of `n`, most significant first; fuelled
recursion (the fuel `n` itself always suffices since `n / 16 < n`). -/
def hexUAux : Nat → Nat → List Char
  | 0, _ => []
  | fuel + 1, n =>
    if n = 0 then [] else hexUAux fuel (n / 16) ++ [hexDigitU (n % 16)]

/-- `'{:X}'.format n` for a natural number `n`. -/
def toHexUpper (n : Nat) : String :=
  if n = 0 then "0" else String.mk (hexUAux n n)

/-- `'0x{:X}'.format addr`. -/
def formatAddr (addr : Nat) : String := "0x" ++ toHexUpper addr

/-! ## Temporary artifacts

`BapIda.tmpfile` lives in `bap/utils/run.py`, outside the analysed file.
Modelled from the spec: the temporary artifact manager allocates a
uniquely-named file in a writable temp location for each of the four artifact
kinds; a session receives the four paths.  The paths are parameters of the
embedding. -/

/-- Modelled from the spec: the four per-session temporary artifact paths
(GeneratedScript, ColorScheme, StdinChannel, StdoutChannel) allocated by
`BapIda.tmpfile`, which is not part of the analysed source. -/
structure Artifacts where
  scriptName : String
  schemeName : String
  stdinName : String
  stdoutName : String

/-- Modelled from the spec: the argument sequence `self.args` as left by
`BapIda.__init__` (not part of the analysed source) before
`PropagateTaint.__init__` appends to it; the spec's generated-invocation
interface lists exactly the tokens appended here, so the inherited sequence
contributes none of them. -/
def initialArgs : List String := []

/-! ## The session builder (`PropagateTaint.__init__`) -/

/-- The `self.passes` list: `['taint', propagate, 'map-terms',
'emit-ida-script']` with `propagate = 'run' if engine == 'primus' else
'propagate-taint'`. -/
def passesOf (engine : String) : List String :=
  ["taint",
   if engine = "primus" then "run" else "propagate-taint",
   "map-terms", "emit-ida-script"]

/-- The base arguments appended unconditionally by `PropagateTaint.__init__`. -/
def baseArgsOf (addr : Nat) (kind : String) (engine : String)
    (a : Artifacts) : List String :=
  ["--taint-" ++ kind, formatAddr addr,
   "--passes", String.intercalate "," (passesOf engine),
   "--map-terms-using", a.schemeName,
   "--emit-ida-script-attr", "color",
   "--emit-ida-script-file", a.scriptName]

/-- The Primus-only arguments appended when `engine == 'primus'`. -/
def primusArgsOf (name : String) (depth loop_depth : Int)
    (a : Artifacts) : List String :=
  ["--run-entry-points=" ++ name,
   "--primus-limit-max-length=" ++ toString depth,
   "--primus-limit-max-visited=" ++ toString loop_depth,
   "--primus-promiscuous-mode",
   "--primus-greedy-scheduler",
   "--primus-propagate-taint-from-attributes",
   "--primus-propagate-taint-to-attributes",
   "--primus-lisp-channel-redirect=<stdin>:" ++ a.stdinName ++
     ",<stdout>:" ++ a.stdoutName]

/-- The state `PropagateTaint.__init__` leaves on the object. -/
structure Session where
  engine : String
  depth : Int
  loop_depth : Int
  action : String
  passes : List String
  args : List String

/-- Shallow embedding of `PropagateTaint.__init__`: `addr` and `kind` are the
constructor arguments, `engineAns`/`depthAns` the two prompt answers,
`a` the four temp-file paths and `functionName` the host's
`idc.GetFunctionName(addr)` result. -/
def buildSession (addr : Nat) (kind : String) (engineAns : Option String)
    (depthAns : Option Int) (a : Artifacts) (functionName : String) : Session :=
  let engine := resolveEngine engineAns
  let depth := resolveDepth depthAns
  let loop_depth := LOOP_DEPTH
  { engine := engine
    depth := depth
    loop_depth := loop_depth
    action := "propagating taint from " ++
      (if kind = "ptr" then "*" else "") ++ formatAddr addr
    passes := passesOf engine
    args := initialArgs ++ baseArgsOf addr kind engine a ++
      (if engine = "primus" then primusArgsOf functionName depth loop_depth a
       else []) }

/-! ## The color scheme file -/

/-- One line written to the scheme file:
`'(({0}) (color {1}))\n'.format(pat, color)`. -/
def schemeLine (p : String × String) : String :=
  "((" ++ p.1 ++ ") (color " ++ p.2 ++ "))\n"

/-- The lines written to the scheme file, in write order. -/
def schemeLines : List String := patterns.map schemeLine

/-- The full contents of the scheme file once closed. -/
def schemeContent : String := String.join schemeLines

/-! ## Host-effect trace of `PropagateTaint.__init__`

The ordered externally visible operations the constructor performs, in source
order: disable the script timeout, the two prompts, the four temp-file
allocations, the scheme writes, the scheme close, the function-name lookup,
and the argument appends. -/

/-- An externally visible operation of `PropagateTaint.__init__`.  The
`enableScriptTimeout` constructor expresses a restoration of the host's script
timeout; the source never performs one, so no trace contains it. -/
inductive Event where
  | disableScriptTimeout
  | enableScriptTimeout
  | askStr
  | askLong
  | tmpfile (suffix : String)
  | writeScheme (line : String)
  | closeScheme
  | getFunctionName
  | appendArgs (args : List String)
  deriving DecidableEq

/-- Whether an event appends to the argument sequence. -/
def Event.isAppendArgs : Event → Bool
  | .appendArgs _ => true
  | _ => false

/-- The ordered trace of host-visible operations performed by
`PropagateTaint.__init__`. -/
def initTrace (addr : Nat) (kind : String) (engineAns : Option String)
    (depthAns : Option Int) (a : Artifacts) (functionName : String) :
    List Event :=
  let engine := resolveEngine engineAns
  let depth := resolveDepth depthAns
  let loop_depth := LOOP_DEPTH
  [Event.disableScriptTimeout, Event.askStr, Event.askLong,
   Event.tmpfile "py", Event.tmpfile "scm",
   Event.tmpfile "stdin", Event.tmpfile "stdout"] ++
  schemeLines.map Event.writeScheme ++
  [Event.closeScheme, Event.getFunctionName,
   Event.appendArgs (baseArgsOf addr kind engine a)] ++
  (if engine = "primus" then
     [Event.appendArgs (primusArgsOf functionName depth loop_depth a)]
   else [])

/-! ## Callback registry (`BapTaint._callbacks`, `install_callback`,
`_do_callbacks`)

Callbacks are modelled as handles (`Nat`) with a behaviour function giving
each handle's effect on a payload: normal return or a raised exception. -/

/-- The dict passed to every callback:
`{'ea': idc.ScreenEA(), 'ptr_or_reg': ptr_or_reg}`. -/
structure CallbackData where
  ea : Nat
  ptr_or_reg : String
  deriving DecidableEq

/-- The class-level `BapTaint._callbacks` mapping, with its two buckets. -/
structure Registry where
  ptr : List Nat
  reg : List Nat
  deriving DecidableEq

/-- Bucket lookup `cls._callbacks[ptr_or_reg]` (only ever reached with a
valid kind, since `BapTaint.__init__` asserts `kind in ('ptr', 'reg')`). -/
def Registry.bucket (r : Registry) (k : String) : List Nat :=
  if k = "ptr" then r.ptr else r.reg

/-- The loop `for callback in cls._callbacks[ptr_or_reg]: callback(data)`:
returns the invocations actually performed, each paired with the payload it
received, and the uncaught exception if one was raised.  A raised exception
propagates out of the plain `for` loop, so no later callback runs. -/
def runCallbacks (beh : Nat → CallbackData → Except String Unit)
    (d : CallbackData) : List Nat → List (Nat × CallbackData) × Option String
  | [] => ([], none)
  | c :: rest =>
    match beh c d with
    | .ok _ =>
      let t := runCallbacks beh d rest
      ((c, d) :: t.1, t.2)
    | .error e => ([(c, d)], some e)

/-- `BapTaint._do_callbacks(ptr_or_reg)`: builds the payload from the current
screen address and the kind, then invokes the bucket's callbacks in order. -/
def do_callbacks (beh : Nat → CallbackData → Except String Unit)
    (r : Registry) (screenEA : Nat) (ptr_or_reg : String) :
    List (Nat × CallbackData) × Option String :=
  runCallbacks beh ⟨screenEA, ptr_or_reg⟩ (r.bucket ptr_or_reg)

/-- One branch of `BapTaint.install_callback` with an explicit kind: append to
the matching bucket, or signal `idc.Fatal` (surfaced as the second component)
leaving the registry untouched. -/
def install_one (r : Registry) (cb : Nat) (k : String) :
    Registry × Option String :=
  if k = "ptr" then ({ r with ptr := r.ptr ++ [cb] }, none)
  else if k = "reg" then ({ r with reg := r.reg ++ [cb] }, none)
  else (r, some ("Invalid ptr_or_reg value passed " ++ k))

/-- `BapTaint.install_callback(callback_fn, ptr_or_reg=None)`: with no kind it
recursively installs into the `'ptr'` bucket and then the `'reg'` bucket. -/
def install_callback (r : Registry) (cb : Nat) :
    Option String → Registry × Option String
  | none => install_one (install_one r cb "ptr").1 cb "reg"
  | some k => install_one r cb k

/-! ## Completion handler (`BapTaint.finish`) -/

/-- An externally visible operation of `BapTaint.finish`. -/
inductive FinishEvent where
  | execScript (path : String)
  | refreshIdaView
  | dispatch (d : CallbackData)
  | refresh
  deriving DecidableEq

/-- The ordered trace of `BapTaint.finish`: execute the generated script,
refresh the view, dispatch the callbacks for the session's kind (with the
payload `_do_callbacks` builds from `idc.ScreenEA()` at that moment), then
`idc.Refresh()`. -/
def finishTrace (scriptName : String) (kind : String)
    (screenEAAtFinish : Nat) : List FinishEvent :=
  [FinishEvent.execScript scriptName,
   FinishEvent.refreshIdaView,
   FinishEvent.dispatch ⟨screenEAAtFinish, kind⟩,
   FinishEvent.refresh]

/-! ## Token vocabulary for the claims -/

/-- A token starts with prefix `p` when `p`'s characters are a prefix of its
characters. -/
def startsWithTok (p t : String) : Bool := p.data.isPrefixOf t.data

/-- The taint-qualifier predicate of the claims: the token is literally
`--taint-ptr` or `--taint-reg`. -/
def isTaintTok (t : String) : Bool := t = "--taint-ptr" || t = "--taint-reg"

/-! ## Helper lemmas -/

/-- Two strings with distinct data are distinct. -/
lemma ne_of_data_ne (s t : String) (h : s.data ≠ t.data) : s ≠ t :=
  fun e => h (by rw [e])

/-- Two strings whose first characters differ are distinct. -/
lemma ne_of_head_ne (s t : String) (h : s.data.head? ≠ t.data.head?) : s ≠ t :=
  fun e => h (by rw [e])

/-- A prefix test fails when the first characters differ. -/
lemma startsWithTok_eq_false_of_head_ne (p s : String) (c c' : Char)
    (hp : p.data.head? = some c) (hs : s.data.head? = some c') (hne : c ≠ c') :
    startsWithTok p s = false := by
  obtain ⟨lp⟩ := p
  obtain ⟨ls⟩ := s
  match lp, ls, hp, hs with
  | a :: _, b :: _, hp, hs =>
    simp only [List.head?] at hp hs
    injection hp with hp
    injection hs with hs
    subst hp
    subst hs
    simp [startsWithTok, List.isPrefixOf, hne]

/-- A string whose first character is `/` is not a taint-qualifier token. -/
lemma isTaintTok_eq_false_of_slash (s : String)
    (hs : s.data.head? = some '/') : isTaintTok s = false := by
  have h1 : s ≠ "--taint-ptr" := ne_of_head_ne _ _ (by rw [hs]; decide)
  have h2 : s ≠ "--taint-reg" := ne_of_head_ne _ _ (by rw [hs]; decide)
  simp [isTaintTok, h1, h2]

/-- The rendered address starts with the character `0`. -/
lemma formatAddr_head (addr : Nat) : (formatAddr addr).data.head? = some '0' := by
  simp [formatAddr, String.data_append]

/-- The rendered address is not a taint-qualifier token. -/
lemma isTaintTok_formatAddr (addr : Nat) : isTaintTok (formatAddr addr) = false := by
  have h1 : formatAddr addr ≠ "--taint-ptr" :=
    ne_of_head_ne _ _ (by rw [formatAddr_head]; decide)
  have h2 : formatAddr addr ≠ "--taint-reg" :=
    ne_of_head_ne _ _ (by rw [formatAddr_head]; decide)
  simp [isTaintTok, h1, h2]

/-- No Primus-only argument is a taint-qualifier token. -/
lemma isTaintTok_primusArgs (name : String) (depth loop_depth : Int)
    (a : Artifacts) :
    ∀ t ∈ primusArgsOf name depth loop_depth a, isTaintTok t = false := by
  intro t ht
  simp only [primusArgsOf, List.mem_cons, List.not_mem_nil, or_false] at ht
  rcases ht with rfl | rfl | rfl | rfl | rfl | rfl | rfl | rfl
  all_goals
    simp only [isTaintTok, Bool.or_eq_false_iff, decide_eq_false_iff_not]
  all_goals
    constructor <;>
      (intro h; have := congrArg String.data h;
       simp [String.data_append] at this)

/-! ## Claim C3: the color scheme file -/

/-- C3: for every session the scheme file written by the session builder
consists of exactly the four fixed lines `((true) (color gray))`,
`((is-visited) (color white))`, `((has-taints) (color red))`,
`((taints) (color yellow))` in that order; the contents are a constant (so any
two sessions write byte-identical scheme files); and in the constructor's
trace the four writes and the close all happen before any argument append. -/
theorem scheme_file_fixed_and_closed_before_args (addr : Nat) (kind : String)
    (engineAns : Option String) (depthAns : Option Int) (a : Artifacts)
    (fname : String) :
    schemeLines =
      ["((true) (color gray))\n", "((is-visited) (color white))\n",
       "((has-taints) (color red))\n", "((taints) (color yellow))\n"] ∧
    schemeContent =
      "((true) (color gray))\n((is-visited) (color white))\n((has-taints) (color red))\n((taints) (color yellow))\n" ∧
    (∃ pre suf, initTrace addr kind engineAns depthAns a fname = pre ++ suf ∧
       pre = [Event.disableScriptTimeout, Event.askStr, Event.askLong,
              Event.tmpfile "py", Event.tmpfile "scm",
              Event.tmpfile "stdin", Event.tmpfile "stdout",
              Event.writeScheme "((true) (color gray))\n",
              Event.writeScheme "((is-visited) (color white))\n",
              Event.writeScheme "((has-taints) (color red))\n",
              Event.writeScheme "((taints) (color yellow))\n",
              Event.closeScheme, Event.getFunctionName] ∧
       (∀ e ∈ pre, e.isAppendArgs = false)) := by
  refine ⟨by decide, by decide, ?_⟩
  refine ⟨_, [Event.appendArgs
      (baseArgsOf addr kind (resolveEngine engineAns) a)] ++
    (if resolveEngine engineAns = "primus" then
       [Event.appendArgs (primusArgsOf fname (resolveDepth depthAns)
          LOOP_DEPTH a)]
     else []), ?_, rfl, by decide⟩
  simp [initTrace, schemeLines, patterns, schemeLine]

/-! ## Claim C4: prompt resolution (corrected) -/

/-- C4 counterexample: entering `-1` at the depth prompt is kept as-is
(Python's `or` only replaces falsy answers, i.e. a cancelled dialog or `0`),
so the constructed session's maxLength is `-1`, which is not greater than
zero. -/
theorem maxLength_not_positive_on_negative_answer :
    ¬ (0 < (buildSession 0x401000 "reg" none (some (-1))
        ⟨"/tmp/a.py", "/tmp/a.scm", "/tmp/a.stdin", "/tmp/a.stdout"⟩
        "main").depth) := by
  decide

/-- C4 (amended): parameter resolution never fails — an empty or cancelled
engine answer resolves to Primus, a cancelled or zero maxLength answer
resolves to 4096, maxVisited is never prompted (the trace holds exactly one
string prompt and one integer prompt) and is always 64, and the resolved
maxLength is always a nonzero integer which is positive whenever the prompt
answer is nonnegative (a negative answer is kept as entered). -/
theorem prompt_resolution_defaults (addr : Nat) (kind : String)
    (engineAns : Option String) (depthAns : Option Int) (a : Artifacts)
    (fname : String) :
    (buildSession addr kind none depthAns a fname).engine = "primus" ∧
    (buildSession addr kind (some "") depthAns a fname).engine = "primus" ∧
    (buildSession addr kind engineAns none a fname).depth = 4096 ∧
    (buildSession addr kind engineAns (some 0) a fname).depth = 4096 ∧
    (buildSession addr kind engineAns depthAns a fname).loop_depth = 64 ∧
    (initTrace addr kind engineAns depthAns a fname).count Event.askStr = 1 ∧
    (initTrace addr kind engineAns depthAns a fname).count Event.askLong = 1 ∧
    (buildSession addr kind engineAns depthAns a fname).depth ≠ 0 ∧
    (∀ d : Int, depthAns = some d → 0 ≤ d →
       0 < (buildSession addr kind engineAns depthAns a fname).depth) := by
  refine ⟨rfl, rfl, rfl, rfl, rfl, ?_, ?_, ?_, ?_⟩
  · by_cases he : resolveEngine engineAns = "primus" <;>
      simp [initTrace, he, schemeLines, patterns, schemeLine, List.count_cons,
        List.count_append]
  · by_cases he : resolveEngine engineAns = "primus" <;>
      simp [initTrace, he, schemeLines, patterns, schemeLine, List.count_cons,
        List.count_append]
  · rcases depthAns with _ | d
    · simp [buildSession, resolveDepth, DEPTH]
    · by_cases hd : d = 0 <;> simp [buildSession, resolveDepth, DEPTH, hd]
  · intro d hd hnonneg
    subst hd
    by_cases hd0 : d = 0 <;>
      simp only [buildSession, resolveDepth, hd0, if_true, if_false, DEPTH]
    · decide
    · omega

/-- Witness for `prompt_resolution_defaults` at a concrete session. -/
theorem prompt_resolution_defaults_witness :
    0 < (buildSession 0x401000 "reg" (some "primus") (some 5)
      ⟨"/tmp/a.py", "/tmp/a.scm", "/tmp/a.stdin", "/tmp/a.stdout"⟩
      "main").depth :=
  (prompt_resolution_defaults 0x401000 "reg" (some "primus") (some 5)
    ⟨"/tmp/a.py", "/tmp/a.scm", "/tmp/a.stdin", "/tmp/a.stdout"⟩
    "main").2.2.2.2.2.2.2.2 5 rfl (by decide)

/-! ## Claim C9: script timeout (corrected) -/

/-- C9 counterexample: the constructor disables the host's script timeout but
never restores it — a concrete session's trace contains no enable event. -/
theorem script_timeout_never_restored :
    Event.enableScriptTimeout ∉
      initTrace 0x401000 "reg" none none
        ⟨"/tmp/a.py", "/tmp/a.scm", "/tmp/a.stdin", "/tmp/a.stdout"⟩
        "main" := by
  decide

/-- C9 (amended): the host's script timeout is disabled before the two
interactive prompts run, and it is never restored afterwards — no trace of the
constructor contains a restore of the timeout. -/
theorem script_timeout_disabled_before_prompts (addr : Nat) (kind : String)
    (engineAns : Option String) (depthAns : Option Int) (a : Artifacts)
    (fname : String) :
    (initTrace addr kind engineAns depthAns a fname).take 3 =
      [Event.disableScriptTimeout, Event.askStr, Event.askLong] ∧
    Event.enableScriptTimeout ∉ initTrace addr kind engineAns depthAns a fname := by
  constructor
  · simp [initTrace]
  · by_cases he : resolveEngine engineAns = "primus" <;>
      simp [initTrace, he, schemeLines, patterns, schemeLine]

/-! ## Claim C5: the completion handler's payload (code bug) -/

/-- Callback behaviour used in the completion-handler exhibit: every callback
returns normally. -/
def behFinish : Nat → CallbackData → Except String Unit := fun _ _ => Except.ok ()

/-- C5 exhibit: a session whose target address was `0x401000` completes while
the cursor sits at `0x402000`.  `finish` runs the script, refreshes, dispatches
and refreshes again in order, but `_do_callbacks` builds its payload from
`idc.ScreenEA()` at completion time, so the callback receives `ea = 0x402000`
— not the address the taint was propagated from, contradicting
`install_callback`'s own docstring ("The value of EA at point where user
propagated taint from"). -/
theorem finish_payload_uses_screen_ea :
    finishTrace "/tmp/a.py" "reg" 0x402000 =
      [FinishEvent.execScript "/tmp/a.py", FinishEvent.refreshIdaView,
       FinishEvent.dispatch ⟨0x402000, "reg"⟩, FinishEvent.refresh] ∧
    (do_callbacks behFinish ⟨[], [7]⟩ 0x402000 "reg").1 =
      [(7, ⟨0x402000, "reg"⟩)] ∧
    FinishEvent.dispatch ⟨0x401000, "reg"⟩ ∉
      finishTrace "/tmp/a.py" "reg" 0x402000 := by
  refine ⟨rfl, rfl, by decide⟩

/-! ## Dispatch lemmas -/

/-- When every callback in the list returns normally, the loop invokes all
of them in order with the payload and raises nothing. -/
lemma runCallbacks_all_ok (beh : Nat → CallbackData → Except String Unit)
    (d : CallbackData) (cbs : List Nat)
    (h : ∀ c ∈ cbs, beh c d = Except.ok ()) :
    runCallbacks beh d cbs = (cbs.map (fun c => (c, d)), none) := by
  induction cbs with
  | nil => rfl
  | cons c rest ih =>
    have hc : beh c d = Except.ok () := h c (by simp)
    simp [runCallbacks, hc, ih (fun c' hc' => h c' (by simp [hc']))]

/-- When the callbacks before `c` return normally and `c` raises, the loop
invokes exactly the callbacks up to and including `c` and the exception
propagates: the callbacks after `c` never run. -/
lemma runCallbacks_stops (beh : Nat → CallbackData → Except String Unit)
    (d : CallbackData) (pre : List Nat) (c : Nat) (post : List Nat) (e : String)
    (hpre : ∀ c' ∈ pre, beh c' d = Except.ok ())
    (hc : beh c d = Except.error e) :
    runCallbacks beh d (pre ++ c :: post) =
      (pre.map (fun c' => (c', d)) ++ [(c, d)], some e) := by
  induction pre with
  | nil => simp [runCallbacks, hc]
  | cons p rest ih =>
    have hp : beh p d = Except.ok () := hpre p (by simp)
    simp [runCallbacks, hp, ih (fun c' h' => hpre c' (by simp [h']))]

/-! ## Claim C6: dispatch fan-out (corrected) -/

/-- Callback behaviour used for the dispatch claim: handle `0` raises, every
other handle returns normally. -/
def behRaises : Nat → CallbackData → Except String Unit :=
  fun n _ => if n = 0 then Except.error "boom" else Except.ok ()

/-- C6 counterexample: with callbacks `[0, 1]` registered for `ptr` and
callback `0` raising, dispatch invokes only callback `0`; callback `1` never
runs, so a raised exception does prevent the later callbacks — the plain
`for` loop in `_do_callbacks` performs no per-callback isolation. -/
theorem dispatch_stops_after_exception :
    (do_callbacks behRaises ⟨[0, 1], []⟩ 0x401000 "ptr").1 =
      [(0, ⟨0x401000, "ptr"⟩)] ∧
    (do_callbacks behRaises ⟨[0, 1], []⟩ 0x401000 "ptr").2 = some "boom" ∧
    (1, (⟨0x401000, "ptr"⟩ : CallbackData)) ∉
      (do_callbacks behRaises ⟨[0, 1], []⟩ 0x401000 "ptr").1 := by
  refine ⟨rfl, rfl, by decide⟩

/-- C6 (amended): `dispatch(kind, payload)` invokes the callbacks registered
for `kind` in registration order, each receiving the payload; when none of
them raises, all of them run.  A callback that raises stops the dispatch:
exactly the callbacks up to and including the raising one are invoked and the
exception propagates out of the loop. -/
theorem dispatch_order_and_abort (beh : Nat → CallbackData → Except String Unit)
    (r : Registry) (ea : Nat) (k : String) :
    ((∀ c ∈ r.bucket k, beh c ⟨ea, k⟩ = Except.ok ()) →
       (do_callbacks beh r ea k).1 =
         (r.bucket k).map (fun c => (c, ⟨ea, k⟩)) ∧
       (do_callbacks beh r ea k).2 = none) ∧
    (∀ pre c post e, r.bucket k = pre ++ c :: post →
       (∀ c' ∈ pre, beh c' ⟨ea, k⟩ = Except.ok ()) →
       beh c ⟨ea, k⟩ = Except.error e →
       (do_callbacks beh r ea k).1 =
         pre.map (fun c' => (c', ⟨ea, k⟩)) ++ [(c, ⟨ea, k⟩)] ∧
       (do_callbacks beh r ea k).2 = some e) := by
  constructor
  · intro h
    simp [do_callbacks, runCallbacks_all_ok beh _ _ h]
  · intro pre c post e hb hpre hc
    simp [do_callbacks, hb, runCallbacks_stops beh _ pre c post e hpre hc]

/-- Witness for `dispatch_order_and_abort` at a concrete registry. -/
theorem dispatch_order_and_abort_witness :
    (do_callbacks behRaises ⟨[], [1, 2]⟩ 5 "reg").1 =
      [(1, ⟨5, "reg"⟩), (2, ⟨5, "reg"⟩)] ∧
    (do_callbacks behRaises ⟨[], [1, 2]⟩ 5 "reg").2 = none := by
  have h := (dispatch_order_and_abort behRaises ⟨[], [1, 2]⟩ 5 "reg").1
    (by
      intro c hc
      simp [Registry.bucket] at hc
      rcases hc with rfl | rfl <;> rfl)
  exact ⟨by rw [h.1]; rfl, h.2⟩

/-! ## Claim C7: kindless installation -/

/-- Callback behaviour used in the installation witness: every callback
returns normally. -/
def behOk : Nat → CallbackData → Except String Unit := fun _ _ => Except.ok ()

/-- C7: `install_callback` with no kind appends the callback to both the
`ptr` and the `reg` buckets as two independent registrations, so a subsequent
dispatch for `ptr` and a dispatch for `reg` each invoke it exactly once —
twice in total — and every payload delivered carries the dispatched kind. -/
theorem install_no_kind_dispatch_twice
    (beh : Nat → CallbackData → Except String Unit)
    (r : Registry) (cb : Nat) (ea1 ea2 : Nat)
    (h1 : cb ∉ r.ptr) (h2 : cb ∉ r.reg)
    (hok1 : ∀ c ∈ r.ptr ++ [cb], beh c ⟨ea1, "ptr"⟩ = Except.ok ())
    (hok2 : ∀ c ∈ r.reg ++ [cb], beh c ⟨ea2, "reg"⟩ = Except.ok ()) :
    (install_callback r cb none).2 = none ∧
    (install_callback r cb none).1.ptr = r.ptr ++ [cb] ∧
    (install_callback r cb none).1.reg = r.reg ++ [cb] ∧
    (do_callbacks beh (install_callback r cb none).1 ea1 "ptr").1.countP
        (fun p => p.1 == cb) = 1 ∧
    (∀ p ∈ (do_callbacks beh (install_callback r cb none).1 ea1 "ptr").1,
        p.2 = ⟨ea1, "ptr"⟩) ∧
    (do_callbacks beh (install_callback r cb none).1 ea2 "reg").1.countP
        (fun p => p.1 == cb) = 1 ∧
    (∀ p ∈ (do_callbacks beh (install_callback r cb none).1 ea2 "reg").1,
        p.2 = ⟨ea2, "reg"⟩) := by
  have hinst : install_callback r cb none =
      ({ ptr := r.ptr ++ [cb], reg := r.reg ++ [cb] }, none) := by
    simp [install_callback, install_one]
  have hbp : (install_callback r cb none).1.bucket "ptr" = r.ptr ++ [cb] := by
    simp [hinst, Registry.bucket]
  have hbr : (install_callback r cb none).1.bucket "reg" = r.reg ++ [cb] := by
    simp [hinst, Registry.bucket]
  have hdp : (do_callbacks beh (install_callback r cb none).1 ea1 "ptr").1 =
      (r.ptr ++ [cb]).map (fun c => (c, ⟨ea1, "ptr"⟩)) := by
    simp [do_callbacks, hbp, runCallbacks_all_ok beh _ _ hok1]
  have hdr : (do_callbacks beh (install_callback r cb none).1 ea2 "reg").1 =
      (r.reg ++ [cb]).map (fun c => (c, ⟨ea2, "reg"⟩)) := by
    simp [do_callbacks, hbr, runCallbacks_all_ok beh _ _ hok2]
  refine ⟨by simp [hinst], by simp [hinst], by simp [hinst], ?_, ?_, ?_, ?_⟩
  · rw [hdp, List.countP_map]
    have hcomp : ((fun p => p.1 == cb) ∘ fun c => (c, (⟨ea1, "ptr"⟩ : CallbackData)))
        = fun x => x == cb := by
      funext x; rfl
    rw [hcomp, List.countP_append]
    have hz : List.countP (fun x => x == cb) r.ptr = 0 :=
      List.countP_eq_zero.2 (fun x hx hbe => by
        rw [beq_iff_eq] at hbe
        subst hbe
        exact h1 hx)
    simp [hz]
  · rw [hdp]
    intro p hp
    simp only [List.mem_map] at hp
    obtain ⟨c, _, rfl⟩ := hp
    rfl
  · rw [hdr, List.countP_map]
    have hcomp : ((fun p => p.1 == cb) ∘ fun c => (c, (⟨ea2, "reg"⟩ : CallbackData)))
        = fun x => x == cb := by
      funext x; rfl
    rw [hcomp, List.countP_append]
    have hz : List.countP (fun x => x == cb) r.reg = 0 :=
      List.countP_eq_zero.2 (fun x hx hbe => by
        rw [beq_iff_eq] at hbe
        subst hbe
        exact h2 hx)
    simp [hz]
  · rw [hdr]
    intro p hp
    simp only [List.mem_map] at hp
    obtain ⟨c, _, rfl⟩ := hp
    rfl

/-- Witness for `install_no_kind_dispatch_twice` at a concrete registry. -/
theorem install_no_kind_dispatch_twice_witness :
    (do_callbacks behOk (install_callback ⟨[], []⟩ 7 none).1
        0x401000 "ptr").1.countP (fun p => p.1 == 7) = 1 ∧
    (do_callbacks behOk (install_callback ⟨[], []⟩ 7 none).1
        0x402000 "reg").1.countP (fun p => p.1 == 7) = 1 := by
  have h := install_no_kind_dispatch_twice behOk ⟨[], []⟩ 7 0x401000 0x402000
    (by simp) (by simp) (fun c _ => rfl) (fun c _ => rfl)
  exact ⟨h.2.2.2.1, h.2.2.2.2.2.1⟩

/-! ## Claim C8: invalid installation kind -/

/-- C8: installing with a kind that is neither `ptr` nor `reg` (nor
unspecified) signals the invalid-argument condition and leaves the registry
unchanged — neither bucket gains the callback. -/
theorem install_invalid_kind_rejected (r : Registry) (cb : Nat) (k : String)
    (hk1 : k ≠ "ptr") (hk2 : k ≠ "reg") :
    (install_callback r cb (some k)).1 = r ∧
    (install_callback r cb (some k)).2.isSome = true ∧
    (install_callback r cb (some k)).1.ptr = r.ptr ∧
    (install_callback r cb (some k)).1.reg = r.reg := by
  simp [install_callback, install_one, hk1, hk2]

/-- Witness for `install_invalid_kind_rejected` at the kind `bogus`. -/
theorem install_invalid_kind_rejected_witness :
    (install_callback ⟨[3], [4]⟩ 9 (some "bogus")).1 = ⟨[3], [4]⟩ ∧
    (install_callback ⟨[3], [4]⟩ 9 (some "bogus")).2.isSome = true := by
  have h := install_invalid_kind_rejected ⟨[3], [4]⟩ 9 "bogus"
    (by decide) (by decide)
  exact ⟨h.1, h.2.1⟩

/-! ## Argument-sequence lemmas -/

/-- Every digit produced by `hexDigitU` on a value below 16 is an uppercase
hexadecimal character. -/
lemma hexDigitU_mem : ∀ n < 16, hexDigitU n ∈ ("0123456789ABCDEF").data := by
  decide

/-- Every character produced by `hexUAux` is an uppercase hexadecimal
character. -/
lemma hexUAux_mem (fuel : Nat) :
    ∀ n, ∀ c ∈ hexUAux fuel n, c ∈ ("0123456789ABCDEF").data := by
  induction fuel with
  | zero => intro n c hc; simp [hexUAux] at hc
  | succ fuel ih =>
    intro n c hc
    by_cases hn : n = 0
    · simp [hexUAux, hn] at hc
    · rw [hexUAux, if_neg hn] at hc
      rcases List.mem_append.1 hc with hc | hc
      · exact ih _ c hc
      · simp only [List.mem_singleton] at hc
        subst hc
        exact hexDigitU_mem _ (Nat.mod_lt _ (by omega))

/-- Every character of the rendered address body is an uppercase hexadecimal
character. -/
lemma toHexUpper_mem (n : Nat) :
    ∀ c ∈ (toHexUpper n).data, c ∈ ("0123456789ABCDEF").data := by
  intro c hc
  by_cases hn : n = 0
  · rw [toHexUpper, if_pos hn] at hc
    simp only [String.data] at hc
    simp at hc
    subst hc
    decide
  · rw [toHexUpper, if_neg hn] at hc
    exact hexUAux_mem n n c hc

/-- The comma-joined passes list is never a taint-qualifier token. -/
lemma isTaintTok_passes_join (engine : String) :
    isTaintTok (String.intercalate "," (passesOf engine)) = false := by
  by_cases he : engine = "primus" <;> simp only [passesOf, he] <;> decide

/-- The comma-joined passes list never starts with a Primus-specific prefix. -/
lemma passes_join_no_primus (engine : String) :
    startsWithTok "--primus-" (String.intercalate "," (passesOf engine)) = false ∧
    startsWithTok "--run-entry-points"
      (String.intercalate "," (passesOf engine)) = false := by
  by_cases he : engine = "primus" <;> simp only [passesOf, he] <;>
    exact ⟨by decide, by decide⟩

/-- In the non-Primus case the produced argument sequence is exactly the base
sequence, and no token in it starts with `--primus-` or with
`--run-entry-points`. -/
lemma legacy_args_no_primus_tokens (addr : Nat) (kind : String)
    (engineAns : Option String) (depthAns : Option Int) (a : Artifacts)
    (fname : String)
    (hsch : a.schemeName.data.head? = some '/')
    (hscr : a.scriptName.data.head? = some '/')
    (he : resolveEngine engineAns ≠ "primus") :
    ∀ t ∈ (buildSession addr kind engineAns depthAns a fname).args,
      startsWithTok "--primus-" t = false ∧
      startsWithTok "--run-entry-points" t = false := by
  have hargs : (buildSession addr kind engineAns depthAns a fname).args =
      baseArgsOf addr kind (resolveEngine engineAns) a := by
    simp [buildSession, initialArgs, he]
  intro t ht
  rw [hargs] at ht
  simp only [baseArgsOf, List.mem_cons, List.not_mem_nil, or_false] at ht
  rcases ht with rfl | rfl | rfl | rfl | rfl | rfl | rfl | rfl | rfl | rfl
  · constructor <;> simp [startsWithTok, String.data_append, List.isPrefixOf]
  · exact ⟨startsWithTok_eq_false_of_head_ne _ _ '-' '0' (by decide)
      (formatAddr_head addr) (by decide),
     startsWithTok_eq_false_of_head_ne _ _ '-' '0' (by decide)
      (formatAddr_head addr) (by decide)⟩
  · exact ⟨by decide, by decide⟩
  · exact passes_join_no_primus _
  · exact ⟨by decide, by decide⟩
  · exact ⟨startsWithTok_eq_false_of_head_ne _ _ '-' '/' (by decide) hsch
      (by decide),
     startsWithTok_eq_false_of_head_ne _ _ '-' '/' (by decide) hsch
      (by decide)⟩
  · exact ⟨by decide, by decide⟩
  · exact ⟨by decide, by decide⟩
  · exact ⟨by decide, by decide⟩
  · exact ⟨startsWithTok_eq_false_of_head_ne _ _ '-' '/' (by decide) hscr
      (by decide),
     startsWithTok_eq_false_of_head_ne _ _ '-' '/' (by decide) hscr
      (by decide)⟩

/-! ## Claim C1: the base argument sequence -/

/-- C1: for every valid `(address, kind)` pair the produced argument sequence
contains exactly one taint-qualifier token, which matches `kind` and is
immediately followed by the address rendered as `0x` plus uppercase
hexadecimal digits; the passes list is `taint`, then `run` (Primus) or
`propagate-taint` (Legacy), then `map-terms`, then `emit-ida-script`; and the
sequence continues with the comma-joined passes, the ColorScheme artifact
path, the attribute name `color`, and the GeneratedScript artifact path. -/
theorem taint_flag_and_base_args (addr : Nat) (kind : String)
    (engineAns : Option String) (depthAns : Option Int) (a : Artifacts)
    (fname : String)
    (hkind : kind = "ptr" ∨ kind = "reg")
    (hsch : a.schemeName.data.head? = some '/')
    (hscr : a.scriptName.data.head? = some '/') :
    (buildSession addr kind engineAns depthAns a fname).args.countP
      isTaintTok = 1 ∧
    isTaintTok ("--taint-" ++ kind) = true ∧
    (buildSession addr kind engineAns depthAns a fname).args =
      ["--taint-" ++ kind, "0x" ++ toHexUpper addr,
       "--passes",
       String.intercalate ","
         (buildSession addr kind engineAns depthAns a fname).passes,
       "--map-terms-using", a.schemeName,
       "--emit-ida-script-attr", "color",
       "--emit-ida-script-file", a.scriptName] ++
      (if resolveEngine engineAns = "primus" then
         primusArgsOf fname (resolveDepth depthAns) LOOP_DEPTH a
       else []) ∧
    (buildSession addr kind engineAns depthAns a fname).passes =
      ["taint",
       if resolveEngine engineAns = "primus" then "run" else "propagate-taint",
       "map-terms", "emit-ida-script"] ∧
    (∀ c ∈ (toHexUpper addr).data, c ∈ ("0123456789ABCDEF").data) := by
  have hbase : (baseArgsOf addr kind (resolveEngine engineAns) a).countP
      isTaintTok = 1 := by
    have htk : isTaintTok ("--taint-" ++ kind) = true := by
      rcases hkind with rfl | rfl <;> decide
    simp only [baseArgsOf, List.countP_cons, List.countP_nil, htk,
      isTaintTok_formatAddr, isTaintTok_passes_join,
      isTaintTok_eq_false_of_slash _ hsch, isTaintTok_eq_false_of_slash _ hscr]
    decide
  have hsuffix : (if resolveEngine engineAns = "primus" then
      primusArgsOf fname (resolveDepth depthAns) LOOP_DEPTH a
    else []).countP isTaintTok = 0 := by
    by_cases he : resolveEngine engineAns = "primus"
    · rw [if_pos he]
      exact List.countP_eq_zero.2 (fun t ht hbe => by
        rw [isTaintTok_primusArgs _ _ _ _ t ht] at hbe
        exact Bool.false_ne_true hbe)
    · rw [if_neg he]; rfl
  refine ⟨?_, ?_, ?_, ?_, toHexUpper_mem addr⟩
  · have : (buildSession addr kind engineAns depthAns a fname).args =
        baseArgsOf addr kind (resolveEngine engineAns) a ++
          (if resolveEngine engineAns = "primus" then
            primusArgsOf fname (resolveDepth depthAns) LOOP_DEPTH a
          else []) := by
      simp [buildSession, initialArgs]
    rw [this, List.countP_append, hbase, hsuffix]
  · rcases hkind with rfl | rfl <;> decide
  · simp [buildSession, initialArgs, baseArgsOf, formatAddr]
  · simp [buildSession, passesOf]

/-- Witness for `taint_flag_and_base_args` at a concrete session. -/
theorem taint_flag_and_base_args_witness :
    (buildSession 0x401000 "reg" (some "legacy") (some 128)
      ⟨"/tmp/a.py", "/tmp/a.scm", "/tmp/a.stdin", "/tmp/a.stdout"⟩
      "main").args.countP isTaintTok = 1 :=
  (taint_flag_and_base_args 0x401000 "reg" (some "legacy") (some 128)
    ⟨"/tmp/a.py", "/tmp/a.scm", "/tmp/a.stdin", "/tmp/a.stdout"⟩ "main"
    (Or.inr rfl) (by decide) (by decide)).1

/-! ## Claim C2: engine-conditional arguments -/

/-- C2: with a Legacy engine the produced argument sequence contains no token
starting with `--primus-` and none starting with `--run-entry-points`; with
the Primus engine it contains the entry-point argument for the looked-up
function name, the two limit flags with the resolved maxLength and the fixed
64, the promiscuous-mode and greedy-scheduler flags, the two
propagate-taint attribute flags, and the channel-redirect token binding
`<stdin>`/`<stdout>` to the session's own stdin/stdout artifact paths. -/
theorem engine_specific_args (addr : Nat) (kind : String)
    (engineAns : Option String) (depthAns : Option Int) (a : Artifacts)
    (fname : String)
    (hsch : a.schemeName.data.head? = some '/')
    (hscr : a.scriptName.data.head? = some '/') :
    (resolveEngine engineAns ≠ "primus" →
      ∀ t ∈ (buildSession addr kind engineAns depthAns a fname).args,
        startsWithTok "--primus-" t = false ∧
        startsWithTok "--run-entry-points" t = false) ∧
    (resolveEngine engineAns = "primus" →
      ("--run-entry-points=" ++ fname) ∈
        (buildSession addr kind engineAns depthAns a fname).args ∧
      ("--primus-limit-max-length=" ++ toString (resolveDepth depthAns)) ∈
        (buildSession addr kind engineAns depthAns a fname).args ∧
      "--primus-limit-max-visited=64" ∈
        (buildSession addr kind engineAns depthAns a fname).args ∧
      "--primus-promiscuous-mode" ∈
        (buildSession addr kind engineAns depthAns a fname).args ∧
      "--primus-greedy-scheduler" ∈
        (buildSession addr kind engineAns depthAns a fname).args ∧
      "--primus-propagate-taint-from-attributes" ∈
        (buildSession addr kind engineAns depthAns a fname).args ∧
      "--primus-propagate-taint-to-attributes" ∈
        (buildSession addr kind engineAns depthAns a fname).args ∧
      ("--primus-lisp-channel-redirect=<stdin>:" ++ a.stdinName ++
        ",<stdout>:" ++ a.stdoutName) ∈
        (buildSession addr kind engineAns depthAns a fname).args) := by
  constructor
  · intro he
    exact legacy_args_no_primus_tokens addr kind engineAns depthAns a fname
      hsch hscr he
  · intro he
    have h64 : ("--primus-limit-max-visited=" ++ toString LOOP_DEPTH) =
        "--primus-limit-max-visited=64" := by decide
    have hargs : (buildSession addr kind engineAns depthAns a fname).args =
        baseArgsOf addr kind (resolveEngine engineAns) a ++
          primusArgsOf fname (resolveDepth depthAns) LOOP_DEPTH a := by
      simp [buildSession, initialArgs, he]
    rw [hargs, ← h64]
    simp [primusArgsOf, List.mem_append]

/-- Witness for `engine_specific_args` at a concrete Primus session. -/
theorem engine_specific_args_witness :
    "--primus-promiscuous-mode" ∈
      (buildSession 0x401000 "reg" none (some 128)
        ⟨"/tmp/a.py", "/tmp/a.scm", "/tmp/a.stdin", "/tmp/a.stdout"⟩
        "main").args :=
  ((engine_specific_args 0x401000 "reg" none (some 128)
    ⟨"/tmp/a.py", "/tmp/a.scm", "/tmp/a.stdin", "/tmp/a.stdout"⟩ "main"
    (by decide) (by decide)).2 rfl).2.2.2.1

/-! ## Claim C10: exact lowercase engine comparison -/

/-- C10: the engine answer is compared against the exact lowercase string
`primus`; every non-empty answer other than exactly `primus` (for example
`Primus`, `PRIMUS` or `legacy`) selects the Legacy pipeline — the passes list
uses `propagate-taint`, and no token starting with `--primus-` or
`--run-entry-points` appears in the argument sequence. -/
theorem non_primus_answer_selects_legacy (addr : Nat) (kind : String)
    (ans : String) (depthAns : Option Int) (a : Artifacts) (fname : String)
    (hne : ans ≠ "") (hnp : ans ≠ "primus")
    (hsch : a.schemeName.data.head? = some '/')
    (hscr : a.scriptName.data.head? = some '/') :
    (buildSession addr kind (some ans) depthAns a fname).engine = ans ∧
    (buildSession addr kind (some ans) depthAns a fname).passes =
      ["taint", "propagate-taint", "map-terms", "emit-ida-script"] ∧
    (∀ t ∈ (buildSession addr kind (some ans) depthAns a fname).args,
      startsWithTok "--primus-" t = false ∧
      startsWithTok "--run-entry-points" t = false) := by
  have hres : resolveEngine (some ans) = ans := by
    simp [resolveEngine, hne]
  have he : resolveEngine (some ans) ≠ "primus" := by
    rw [hres]; exact hnp
  refine ⟨?_, ?_, ?_⟩
  · simp [buildSession, hres]
  · simp [buildSession, passesOf, hres, hnp]
  · exact legacy_args_no_primus_tokens addr kind (some ans) depthAns a fname
      hsch hscr he

/-- Witness for `non_primus_answer_selects_legacy`: the capitalized answer
`Primus` selects the Legacy pipeline. -/
theorem non_primus_answer_selects_legacy_witness :
    (buildSession 0x401000 "ptr" (some "Primus") none
      ⟨"/tmp/a.py", "/tmp/a.scm", "/tmp/a.stdin", "/tmp/a.stdout"⟩
      "main").passes =
      ["taint", "propagate-taint", "map-terms", "emit-ida-script"] :=
  (non_primus_answer_selects_legacy 0x401000 "ptr" "Primus" none
    ⟨"/tmp/a.py", "/tmp/a.scm", "/tmp/a.stdin", "/tmp/a.stdout"⟩ "main"
    (by decide) (by decide) (by decide) (by decide)).2.1

end BapTaint
